import Mathlib

/-!
Shallow embedding of the release-download logic of `gimenete/codeflow-web`:
the asset classifier and fetch lifecycle shared by the UI component
(`DownloadLinks`) and the build-time script (`scripts/update-releases.mjs`).

Filenames are modeled as lists of characters; JavaScript's
`String.prototype.toLowerCase` is modeled by mapping `Char.toLower`
(the filenames involved are ASCII), `includes` by the infix relation
`<:+:` and `endsWith` by the suffix relation `<:+`.
-/

/-- A filename (JavaScript string), modeled as its character list. -/
abbrev FileName := List Char

/-- JavaScript `name.toLowerCase()`. -/
def lowerName (n : FileName) : FileName := n.map Char.toLower

/- Pattern constants appearing in the matchers, as character lists. -/

def patMac : FileName := ['m', 'a', 'c']

def patDarwin : FileName := ['d', 'a', 'r', 'w', 'i', 'n']

def patMacos : FileName := ['m', 'a', 'c', 'o', 's']

def patDmg : FileName := ['.', 'd', 'm', 'g']

def patWin : FileName := ['w', 'i', 'n']

def patExe : FileName := ['.', 'e', 'x', 'e']

def patMsi : FileName := ['.', 'm', 's', 'i']

def patLinux : FileName := ['l', 'i', 'n', 'u', 'x']

def patAppimage : FileName := ['.', 'a', 'p', 'p', 'i', 'm', 'a', 'g', 'e']

def patDeb : FileName := ['.', 'd', 'e', 'b']

def patRpm : FileName := ['.', 'r', 'p', 'm']

def patSha256 : FileName := ['.', 's', 'h', 'a', '2', '5', '6']

def patSig : FileName := ['.', 's', 'i', 'g']

def patBlockmap : FileName := ['.', 'b', 'l', 'o', 'c', 'k', 'm', 'a', 'p']

def patYaml : FileName := ['.', 'y', 'a', 'm', 'l']

def patYml : FileName := ['.', 'y', 'm', 'l']

/-- The macOS platform predicate of the UI component (`platforms[0].match`):
filename contains "mac", "darwin" or "macos", or ends with ".dmg",
case-insensitively. -/
def macMatch (name : FileName) : Bool :=
  let lower := lowerName name
  decide (patMac <:+: lower) || decide (patDarwin <:+: lower) ||
    decide (patMacos <:+: lower) || decide (patDmg <:+ lower)

/-- The Windows platform predicate of the UI component (`platforms[1].match`):
filename contains "win", or ends with ".exe" or ".msi", case-insensitively. -/
def winMatch (name : FileName) : Bool :=
  let lower := lowerName name
  decide (patWin <:+: lower) || decide (patExe <:+ lower) || decide (patMsi <:+ lower)

/-- The Linux platform predicate of the UI component (`platforms[2].match`):
filename contains "linux", or ends with ".appimage", ".deb" or ".rpm",
case-insensitively. -/
def linuxMatch (name : FileName) : Bool :=
  let lower := lowerName name
  decide (patLinux <:+: lower) || decide (patAppimage <:+ lower) ||
    decide (patDeb <:+ lower) || decide (patRpm <:+ lower)

/-- A platform rule of the UI component: a display name and a filename
predicate. The source's `icon` field is presentational and omitted; the
source field `match` is a Lean keyword and is embedded as `matcher`. -/
structure Platform where
  name : String
  matcher : FileName → Bool

/-- The fixed, ordered platform rule table of the UI component. -/
def platforms : List Platform :=
  [⟨"macOS", macMatch⟩, ⟨"Windows", winMatch⟩, ⟨"Linux", linuxMatch⟩]

/-- The function `isInstallerAsset`, written identically in the UI component and in
`scripts/update-releases.mjs`: keep the asset unless its lowercased name
ends with `.sha256`, `.sig`, `.blockmap`, `.yaml` or `.yml`. -/
def isInstallerAsset (name : FileName) : Bool :=
  let lower := lowerName name
  !(decide (patSha256 <:+ lower) || decide (patSig <:+ lower) ||
      decide (patBlockmap <:+ lower) || decide (patYaml <:+ lower) ||
      decide (patYml <:+ lower))

/-- The function `detectPlatform` of `scripts/update-releases.mjs`: an if-chain over the
same three conditions as the UI matchers, returning the first label whose
condition holds, or `none`. -/
def detectPlatform (name : FileName) : Option String :=
  let lower := lowerName name
  if decide (patMac <:+: lower) || decide (patDarwin <:+: lower) ||
      decide (patMacos <:+: lower) || decide (patDmg <:+ lower) then some "macOS"
  else if decide (patWin <:+: lower) || decide (patExe <:+ lower) ||
      decide (patMsi <:+ lower) then some "Windows"
  else if decide (patLinux <:+: lower) || decide (patAppimage <:+ lower) ||
      decide (patDeb <:+ lower) || decide (patRpm <:+ lower) then some "Linux"
  else none

/-- A release asset as consumed by the UI component. -/
structure ReleaseAsset where
  name : FileName
  browser_download_url : String
  size : Nat
deriving DecidableEq

/-- The filtered asset list of `DownloadLinks`:
`release.assets.filter((a) => isInstallerAsset(a.name))`. -/
def installerAssets (assets : List ReleaseAsset) : List ReleaseAsset :=
  assets.filter (fun a => isInstallerAsset a.name)

/-- The per-platform slots of `DownloadLinks`:
`platforms.map((platform) => ({ platform, asset: installerAssets.find((a) => platform.match(a.name)) }))`. -/
def platformAssets (assets : List ReleaseAsset) : List (Platform × Option ReleaseAsset) :=
  platforms.map (fun p => (p, (installerAssets assets).find? (fun a => p.matcher a.name)))

/-- The residual list of `DownloadLinks`:
`installerAssets.filter((a) => !platforms.some((p) => p.match(a.name)))`. -/
def unmatchedAssets (assets : List ReleaseAsset) : List ReleaseAsset :=
  (installerAssets assets).filter (fun a => !(platforms.any (fun p => p.matcher a.name)))

/-- The unit table of `formatBytes`: `["B", "KB", "MB", "GB"]`. -/
def units : List String := ["B", "KB", "MB", "GB"]

/-- JavaScript `value.toFixed(1)` for `value = bytes / 1024 ^ i`, in exact arithmetic:
the nearest multiple of one tenth, ties away from zero (per the
ECMAScript `toFixed` specification), rendered with exactly one digit
after the decimal point. -/
def toFixed1 (bytes i : Nat) : String :=
  let n := (20 * bytes + 1024 ^ i) / (2 * 1024 ^ i)
  toString (n / 10) ++ "." ++ toString (n % 10)

/-- The function `formatBytes`, written identically in the UI component and in
`scripts/update-releases.mjs`. The JavaScript index
`Math.floor(Math.log(bytes) / Math.log(1024))` is modeled in exact real
arithmetic as `Nat.log 1024 bytes`; `value.toFixed(0)` at index 0 is the
integer `bytes` itself; `units[i]` beyond the table is JavaScript
`undefined`, which the template literal renders as the text "undefined". -/
def formatBytes (bytes : Nat) : String :=
  if bytes = 0 then "0 B"
  else
    let i := Nat.log 1024 bytes
    (if i = 0 then toString bytes else toFixed1 bytes i) ++ " " ++ units.getD i "undefined"

/-- A release as consumed by the UI component and the script: the fields of
the upstream latest-release JSON object that the code reads. -/
structure Release where
  tag_name : String
  name : String
  html_url : String
  published_at : String
  assets : List ReleaseAsset
  body : String
deriving DecidableEq

/-- The single HTTP exchange, as seen by either client: the request either
fails at the network level, or yields a status code together with the
parse result of the response body (`none` models a body `res.json()`
rejects). -/
inductive FetchOutcome where
  | networkFailure
  | response (status : Nat) (body : Option Release)

/-- The one generic user-facing error message of `DownloadLinks`. -/
def genericErrorMsg : String := "Could not fetch release information. Please try again later."

/-- The component state of `DownloadLinks` after the effect settles:
`release`, `loading` and `error` hooks. -/
structure ComponentState where
  release : Option Release
  loading : Bool
  error : Option String
deriving DecidableEq

/-- The fetch effect of `DownloadLinks`, as the final component state it
settles into: status 404 returns `null` before parsing (release and error
stay unset); a non-ok status throws; an ok status parses the body, a parse
rejection lands in the same `catch`; the `catch` sets the one generic
error message. `res.ok` is status 200 to 299. -/
def runFetchEffect : FetchOutcome → ComponentState
  | .networkFailure => ⟨none, false, some genericErrorMsg⟩
  | .response status body =>
    if status = 404 then ⟨none, false, none⟩
    else if 200 ≤ status && status ≤ 299 then
      match body with
      | some r => ⟨some r, false, none⟩
      | none => ⟨none, false, some genericErrorMsg⟩
    else ⟨none, false, some genericErrorMsg⟩

/-- What `DownloadLinks` renders, by its early returns. -/
inductive View where
  | loadingView
  | errorView (msg : String)
  | notFoundView
  | successView (r : Release)
deriving DecidableEq

/-- The render branch order of `DownloadLinks`: loading spinner, then the
error paragraph, then the no-releases state when `release` is `null`,
else the download grid for the release. -/
def render (s : ComponentState) : View :=
  if s.loading then .loadingView
  else
    match s.error with
    | some m => .errorView m
    | none =>
      match s.release with
      | none => .notFoundView
      | some r => .successView r

/-- One asset of the build script's output artifact
(`release.assets.map` in `main`). -/
structure ProcessedAsset where
  name : FileName
  url : String
  size : Nat
  sizeFormatted : String
  platform : Option String
deriving DecidableEq

/-- The release object of the build script's output artifact. `version` is
`release.name || release.tag_name`: the empty string models a falsy
`name`. -/
structure ProcessedRelease where
  version : String
  tagName : String
  url : String
  publishedAt : String
  assets : List ProcessedAsset
deriving DecidableEq

/-- The build script's output artifact: the content of `release.json`. -/
structure Artifact where
  release : Option ProcessedRelease
  fetchedAt : String
deriving DecidableEq

/-- The asset mapping of the script's `main`: filter by `isInstallerAsset`,
then record the name, url, size, formatted size and detected platform. -/
def processAssets (assets : List ReleaseAsset) : List ProcessedAsset :=
  (assets.filter (fun a => isInstallerAsset a.name)).map
    (fun a => ⟨a.name, a.browser_download_url, a.size, formatBytes a.size, detectPlatform a.name⟩)

/-- The release object the script serializes on a 2xx response. -/
def processRelease (r : Release) (now : String) : Artifact :=
  ⟨some ⟨if r.name = "" then r.tag_name else r.name, r.tag_name, r.html_url,
      r.published_at, processAssets r.assets⟩, now⟩

/-- The build script's `main`, as a function from the fetch outcome, the
current time and the previous content of the output file (`none` when the
file does not exist) to the process exit code and the content of the
output file afterwards. Status 404 writes the null artifact and returns
(exit 0); any other non-ok status logs and exits 1 without writing; an ok
status parses the body and writes the processed artifact; a body the JSON
parser rejects makes the unhandled promise rejection kill the process
(exit code 1) before anything is written. -/
def scriptMain (outcome : FetchOutcome) (now : String) (prev : Option Artifact) :
    Nat × Option Artifact :=
  match outcome with
  | .networkFailure => (1, prev)
  | .response status body =>
    if status = 404 then (0, some ⟨none, now⟩)
    else if !(200 ≤ status && status ≤ 299) then (1, prev)
    else
      match body with
      | none => (1, prev)
      | some r => (0, some (processRelease r now))

/- Concrete fixture data, drawn from the spec's scenarios. -/

/-- The asset `App-1.0.dmg` of the spec's classification scenario. -/
def dmgAsset : ReleaseAsset :=
  ⟨['A', 'p', 'p', '-', '1', '.', '0', '.', 'd', 'm', 'g'], "u1", 1000000⟩

/-- The asset `App-1.0.exe` of the spec's classification scenario. -/
def exeAsset : ReleaseAsset :=
  ⟨['A', 'p', 'p', '-', '1', '.', '0', '.', 'e', 'x', 'e'], "u2", 2000000⟩

/-- The asset `App-1.0.dmg.sha256` of the spec's classification scenario. -/
def shaAsset : ReleaseAsset :=
  ⟨['A', 'p', 'p', '-', '1', '.', '0', '.', 'd', 'm', 'g', '.',
    's', 'h', 'a', '2', '5', '6'], "u3", 64⟩

/-- The three assets of the spec's classification scenario, in order. -/
def sampleAssets : List ReleaseAsset := [dmgAsset, exeAsset, shaAsset]

/-- The asset `readme.txt` of the spec's residual scenario. -/
def readmeAsset : ReleaseAsset :=
  ⟨['r', 'e', 'a', 'd', 'm', 'e', '.', 't', 'x', 't'], "u4", 10⟩

/-- A second Windows asset, `b.exe`, ordered after `App-1.0.exe`. -/
def exeAsset2 : ReleaseAsset := ⟨['b', '.', 'e', 'x', 'e'], "u6", 7⟩

/-- An asset list with two assets matching the Windows rule. -/
def twoExes : List ReleaseAsset := [exeAsset, exeAsset2]

/-- An asset whose filename contains "darwin". -/
def darwinAsset : ReleaseAsset :=
  ⟨['C', 'o', 'd', 'e', 'f', 'l', 'o', 'w', '-', 'd', 'a', 'r', 'w', 'i', 'n',
    '-', 'x', '6', '4', '.', 'z', 'i', 'p'], "u5", 5⟩

/-- A sample release over the scenario assets. -/
def sampleRelease : Release :=
  ⟨"v1.0", "Codeflow 1.0", "h", "2024-01-01", sampleAssets, ""⟩

/-- A first-match decomposition for `List.find?`: a found element splits the
list at its first occurrence satisfying the predicate. -/
theorem find?_eq_some_split {α : Type} (p : α → Bool) (l : List α) (a : α)
    (h : l.find? p = some a) :
    ∃ l₁ l₂, l = l₁ ++ a :: l₂ ∧ p a = true ∧ ∀ b ∈ l₁, p b = false := by
  induction l with
  | nil => simp [List.find?] at h
  | cons x xs ih =>
    cases hx : p x with
    | true =>
      rw [List.find?_cons_of_pos _ hx] at h
      obtain rfl : x = a := by simpa using h
      exact ⟨[], xs, rfl, hx, by simp⟩
    | false =>
      rw [List.find?_cons_of_neg _ (by simp [hx])] at h
      obtain ⟨l₁, l₂, heq, hpa, hall⟩ := ih h
      refine ⟨x :: l₁, l₂, by rw [heq, List.cons_append], hpa, ?_⟩
      intro b hb
      rcases List.mem_cons.1 hb with rfl | hb
      · exact hx
      · exact hall b hb

/-- C4: for every list of release assets, the installer filter removes
exactly those assets whose filename, lowercased, ends with `.sha256`,
`.sig`, `.blockmap`, `.yaml` or `.yml`, and keeps all other assets
unchanged and in order. -/
theorem installer_filter_exact (assets : List ReleaseAsset) :
    List.Sublist (installerAssets assets) assets ∧
    ∀ a : ReleaseAsset, a ∈ installerAssets assets ↔
      a ∈ assets ∧
        ¬(patSha256 <:+ lowerName a.name ∨ patSig <:+ lowerName a.name ∨
          patBlockmap <:+ lowerName a.name ∨ patYaml <:+ lowerName a.name ∨
          patYml <:+ lowerName a.name) := by
  refine ⟨List.filter_sublist assets, fun a => ?_⟩
  simp only [installerAssets, List.mem_filter, isInstallerAsset, Bool.not_eq_true',
    Bool.or_eq_false_iff, decide_eq_false_iff_not]
  tauto

/-- C4 witness: the filter applied to the scenario assets is a sublist, and
the checksum side-file is removed while the installers survive. -/
theorem installer_filter_exact_witness :
    List.Sublist (installerAssets sampleAssets) sampleAssets ∧
    (dmgAsset ∈ installerAssets sampleAssets ↔
      dmgAsset ∈ sampleAssets ∧
        ¬(patSha256 <:+ lowerName dmgAsset.name ∨ patSig <:+ lowerName dmgAsset.name ∨
          patBlockmap <:+ lowerName dmgAsset.name ∨ patYaml <:+ lowerName dmgAsset.name ∨
          patYml <:+ lowerName dmgAsset.name)) :=
  ⟨(installer_filter_exact sampleAssets).1, (installer_filter_exact sampleAssets).2 dmgAsset⟩

/-- C5: every element of `unmatchedAssets` passed the installer filter, and
no element of `unmatchedAssets` satisfies any platform rule's matcher. -/
theorem unmatched_disjoint (assets : List ReleaseAsset) (a : ReleaseAsset)
    (ha : a ∈ unmatchedAssets assets) :
    isInstallerAsset a.name = true ∧ ∀ p ∈ platforms, p.matcher a.name = false := by
  simp only [unmatchedAssets, installerAssets, List.mem_filter, Bool.not_eq_true',
    List.any_eq_false] at ha
  exact ⟨ha.1.2, fun p hp => by simpa using ha.2 p hp⟩

/-- C5 witness: `readme.txt` sits in the residual list of its singleton
asset list, is an installer asset, and matches no platform rule. -/
theorem unmatched_disjoint_witness :
    isInstallerAsset readmeAsset.name = true ∧
    ∀ p ∈ platforms, p.matcher readmeAsset.name = false :=
  unmatched_disjoint [readmeAsset] readmeAsset (by decide)

/-- C3 counterexample: in a list with two Windows installers, the second
one is an installer asset, is not the chosen asset of any platform slot,
and still does not appear in `unmatchedAssets` — because the residual
filter tests the rule predicates, not slot selection. -/
theorem residual_not_selected_counterexample :
    exeAsset2 ∈ installerAssets twoExes ∧
    (∀ pr ∈ platformAssets twoExes, pr.2 ≠ some exeAsset2) ∧
    exeAsset2 ∉ unmatchedAssets twoExes := by
  exact ⟨by decide, by decide, by decide⟩

/-- C3 amended: `unmatchedAssets` consists, in original order, of exactly
those installer-filtered assets whose filename matches no platform rule's
predicate (an asset that matches some rule's predicate but is not the
chosen asset of that rule's slot is excluded as well). -/
theorem residual_exactly_unmatched (assets : List ReleaseAsset) :
    List.Sublist (unmatchedAssets assets) (installerAssets assets) ∧
    ∀ a : ReleaseAsset, a ∈ unmatchedAssets assets ↔
      a ∈ installerAssets assets ∧ ∀ p ∈ platforms, p.matcher a.name = false := by
  refine ⟨List.filter_sublist _, fun a => ?_⟩
  simp only [unmatchedAssets, List.mem_filter, Bool.not_eq_true', List.any_eq_false]
  constructor
  · exact fun h => ⟨h.1, fun p hp => by simpa using h.2 p hp⟩
  · exact fun h => ⟨h.1, fun p hp => by simpa using h.2 p hp⟩

/-- C3 amended witness: for the singleton `readme.txt` list, the residual
list is a sublist of the filtered list, and membership coincides with
matching no rule. -/
theorem residual_exactly_unmatched_witness :
    List.Sublist (unmatchedAssets [readmeAsset]) (installerAssets [readmeAsset]) ∧
    (readmeAsset ∈ unmatchedAssets [readmeAsset] ↔
      readmeAsset ∈ installerAssets [readmeAsset] ∧
        ∀ p ∈ platforms, p.matcher readmeAsset.name = false) :=
  ⟨(residual_exactly_unmatched [readmeAsset]).1,
    (residual_exactly_unmatched [readmeAsset]).2 readmeAsset⟩

/-- C2: the slots are the three fixed rules in order, and each slot holds
either no asset, or the first asset of the installer-filtered list (in
original order) whose filename satisfies that rule's matcher. -/
theorem platform_slot_first_match (assets : List ReleaseAsset) :
    (platformAssets assets).map Prod.fst = platforms ∧
    ∀ pr ∈ platformAssets assets,
      (pr.2 = none → ∀ a ∈ installerAssets assets, pr.1.matcher a.name = false) ∧
      ∀ a : ReleaseAsset, pr.2 = some a →
        pr.1.matcher a.name = true ∧
        ∃ l₁ l₂, installerAssets assets = l₁ ++ a :: l₂ ∧
          ∀ b ∈ l₁, pr.1.matcher b.name = false := by
  constructor
  · simp only [platformAssets, List.map_map]
    exact List.map_id platforms
  · intro pr hpr
    obtain ⟨p, hp, rfl⟩ := List.mem_map.1 hpr
    constructor
    · intro hnone a ha
      have := List.find?_eq_none.1 hnone a ha
      simpa using this
    · intro a hsome
      obtain ⟨l₁, l₂, heq, hpa, hall⟩ :=
        find?_eq_some_split (fun a => p.matcher a.name) (installerAssets assets) a hsome
      exact ⟨hpa, l₁, l₂, heq, hall⟩

/-- C2 witness: on the spec's scenario assets the macOS slot holds
`App-1.0.dmg`, the head of the filtered list, which matches the macOS
rule. -/
theorem platform_slot_first_match_witness :
    macMatch dmgAsset.name = true ∧
    ∃ l₁ l₂, installerAssets sampleAssets = l₁ ++ dmgAsset :: l₂ ∧
      ∀ b ∈ l₁, macMatch b.name = false := by
  have h := (platform_slot_first_match sampleAssets).2
    (⟨"macOS", macMatch⟩, some dmgAsset) (by exact List.Mem.head _)
  exact h.2 dmgAsset rfl

/-- C1 counterexample: the filename `Codeflow-darwin-x64.zip` is accepted
by the Windows UI matcher (since "darwin" contains "win"), yet
`detectPlatform` labels it "macOS", not "Windows" — so the script does not
label an asset with a platform whenever that platform's UI matcher accepts
it, and script rule order does decide which platform an asset gets. -/
theorem detect_vs_matcher_counterexample :
    ¬ ∀ (name : FileName), ∀ p ∈ platforms,
        (detectPlatform name = some p.name ↔ p.matcher name = true) := by
  intro h
  have hw := (h darwinAsset.name ⟨"Windows", winMatch⟩
    (List.Mem.tail _ (List.Mem.head _))).2 (by decide)
  have hm : detectPlatform darwinAsset.name = some "macOS" := by decide
  rw [hm] at hw
  exact absurd hw (by decide)

/-- C1 amended: the script's `detectPlatform` labels an asset with a
platform exactly when that platform is the first, in rule order, whose UI
matcher accepts the filename; in the script, rule order is matching
priority (first match wins), while in the UI each rule scans
independently and order affects display only. -/
theorem detect_first_match (name : FileName) :
    detectPlatform name = (platforms.find? (fun p => p.matcher name)).map Platform.name := by
  have key : detectPlatform name =
      if macMatch name then some "macOS"
      else if winMatch name then some "Windows"
      else if linuxMatch name then some "Linux"
      else none := rfl
  rw [key]
  cases hm : macMatch name <;> cases hw : winMatch name <;> cases hl : linuxMatch name <;>
    simp [platforms, List.find?, hm, hw, hl]

/-- C10: a filename containing "darwin" (case-insensitively) satisfies
both the macOS and the Windows UI matcher, and on the singleton list of
`Codeflow-darwin-x64.zip` the UI places the same asset in the macOS and
Windows slots while the script labels it only "macOS". -/
theorem darwin_matches_mac_and_windows :
    (∀ name : FileName, patDarwin <:+: lowerName name →
      macMatch name = true ∧ winMatch name = true) ∧
    (platformAssets [darwinAsset]).map Prod.snd =
      [some darwinAsset, some darwinAsset, none] ∧
    detectPlatform darwinAsset.name = some "macOS" := by
  refine ⟨?_, by decide, by decide⟩
  intro name h
  constructor
  · simp [macMatch, h]
  · have hw : patWin <:+: lowerName name := (by decide : patWin <:+: patDarwin).trans h
    simp [winMatch, hw]

/-- C10 witness: the filename `Codeflow-darwin-x64.zip` contains "darwin"
and is accepted by both the macOS and the Windows matcher. -/
theorem darwin_matches_mac_and_windows_witness :
    macMatch darwinAsset.name = true ∧ winMatch darwinAsset.name = true :=
  darwin_matches_mac_and_windows.1 darwinAsset.name (by decide)

/-- C6: the UI fetch settles in exactly one of three outcomes determined by
the HTTP result: status 404 gives the not-found state (no release, no
error), a 2xx status with a parsable body gives success carrying the
parsed release, and every other case — a 2xx status whose body fails to
parse, any other non-2xx status, or a network-level failure — gives the
error state with the single generic message. -/
theorem ui_fetch_outcomes (status : Nat) (body : Option Release) :
    (status = 404 →
      runFetchEffect (.response status body) = ⟨none, false, none⟩ ∧
      render (runFetchEffect (.response status body)) = .notFoundView) ∧
    (200 ≤ status → status ≤ 299 → ∀ r : Release, body = some r →
      runFetchEffect (.response status body) = ⟨some r, false, none⟩ ∧
      render (runFetchEffect (.response status body)) = .successView r) ∧
    (200 ≤ status → status ≤ 299 → body = none →
      render (runFetchEffect (.response status body)) = .errorView genericErrorMsg) ∧
    (¬(200 ≤ status ∧ status ≤ 299) → status ≠ 404 →
      render (runFetchEffect (.response status body)) = .errorView genericErrorMsg) ∧
    render (runFetchEffect .networkFailure) = .errorView genericErrorMsg := by
  refine ⟨?_, ?_, ?_, ?_, rfl⟩
  · intro h404
    subst h404
    exact ⟨rfl, rfl⟩
  · intro h200 h299 r hbody
    subst hbody
    have hne : status ≠ 404 := by omega
    have hok : (200 ≤ status && status ≤ 299) = true := by
      simp [decide_eq_true_eq]
      omega
    simp [runFetchEffect, hne, hok, render]
  · intro h200 h299 hbody
    subst hbody
    have hne : status ≠ 404 := by omega
    have hok : (200 ≤ status && status ≤ 299) = true := by
      simp [decide_eq_true_eq]
      omega
    simp [runFetchEffect, hne, hok, render, genericErrorMsg]
  · intro hnotok hne
    have hok : (200 ≤ status && status ≤ 299) = false := by
      simp [decide_eq_true_eq]
      omega
    simp [runFetchEffect, hne, hok, render, genericErrorMsg]

/-- C6 witness: concrete runs of the effect — a 404, a 200 carrying the
sample release, a 200 with an unparsable body, and a 500. -/
theorem ui_fetch_outcomes_witness :
    render (runFetchEffect (.response 404 none)) = .notFoundView ∧
    render (runFetchEffect (.response 200 (some sampleRelease))) = .successView sampleRelease ∧
    render (runFetchEffect (.response 200 none)) = .errorView genericErrorMsg ∧
    render (runFetchEffect (.response 500 none)) = .errorView genericErrorMsg :=
  ⟨((ui_fetch_outcomes 404 none).1 rfl).2,
    ((ui_fetch_outcomes 200 (some sampleRelease)).2.1 (by omega) (by omega)
      sampleRelease rfl).2,
    (ui_fetch_outcomes 200 none).2.2.1 (by omega) (by omega) rfl,
    (ui_fetch_outcomes 500 none).2.2.2.1 (by omega) (by omega)⟩

/-- C7: the build script exits 0 after writing an artifact in exactly the
404 case (null release plus timestamp) and the 2xx-with-parsable-body case
(the classified release); on any other upstream status it exits 1 and the
previous artifact, if any, is left unchanged; and an exit code of 0 only
ever arises from a 404 or a 2xx response. -/
theorem script_exit_spec (status : Nat) (body : Option Release) (now : String)
    (prev : Option Artifact) :
    (status = 404 →
      scriptMain (.response status body) now prev = (0, some ⟨none, now⟩)) ∧
    (200 ≤ status → status ≤ 299 → ∀ r : Release, body = some r →
      scriptMain (.response status body) now prev = (0, some (processRelease r now))) ∧
    (¬(200 ≤ status ∧ status ≤ 299) → status ≠ 404 →
      scriptMain (.response status body) now prev = (1, prev)) ∧
    ((scriptMain (.response status body) now prev).1 = 0 →
      status = 404 ∨ (200 ≤ status ∧ status ≤ 299)) := by
  refine ⟨?_, ?_, ?_, ?_⟩
  · intro h404
    subst h404
    rfl
  · intro h200 h299 r hbody
    subst hbody
    have hne : status ≠ 404 := by omega
    have hok : (200 ≤ status && status ≤ 299) = true := by
      simp [decide_eq_true_eq]
      omega
    simp [scriptMain, hne, hok]
  · intro hnotok hne
    have hok : (200 ≤ status && status ≤ 299) = false := by
      simp [decide_eq_true_eq]
      omega
    simp [scriptMain, hne, hok]
  · intro h0
    by_cases h404 : status = 404
    · exact Or.inl h404
    · by_cases hok : 200 ≤ status ∧ status ≤ 299
      · exact Or.inr hok
      · have hokf : (200 ≤ status && status ≤ 299) = false := by
          simp [decide_eq_true_eq]
          omega
        simp [scriptMain, h404, hokf] at h0

/-- C7 witness: concrete runs of the script — a 404 writes the null
artifact and exits 0, a 200 writes the processed release and exits 0, and
a 500 exits 1 leaving the previous artifact in place. -/
theorem script_exit_spec_witness :
    scriptMain (.response 404 none) "t" none = (0, some ⟨none, "t"⟩) ∧
    scriptMain (.response 200 (some sampleRelease)) "t" none =
      (0, some (processRelease sampleRelease "t")) ∧
    scriptMain (.response 500 none) "t" (some ⟨none, "s"⟩) = (1, some ⟨none, "s"⟩) :=
  ⟨(script_exit_spec 404 none "t" none).1 rfl,
    (script_exit_spec 200 (some sampleRelease) "t" none).2.1 (by omega) (by omega)
      sampleRelease rfl,
    (script_exit_spec 500 none "t" (some ⟨none, "s"⟩)).2.2.1 (by omega) (by omega)⟩

/-- C8 amended: the byte formatter maps 0 to "0 B"; for positive input its
computed unit index `floor (log 1024 bytes)` is the index of the largest
unit whose scaled value is at least 1, and the rendering uses zero
decimals for the B unit and exactly one decimal digit otherwise; the
selected table entry is a unit of {B, KB, MB, GB} for inputs below
1024^4 (beyond that the lookup leaves the table); and the spec's concrete
values hold. -/
theorem formatBytes_spec :
    (formatBytes 0 = "0 B" ∧ formatBytes 1024 = "1.0 KB" ∧ formatBytes 500 = "500 B" ∧
      formatBytes 1536 = "1.5 KB" ∧ formatBytes 1073741824 = "1.0 GB") ∧
    ∀ bytes : Nat, 0 < bytes →
      (1024 ^ Nat.log 1024 bytes ≤ bytes ∧
        ∀ j : Nat, 1024 ^ j ≤ bytes → j ≤ Nat.log 1024 bytes) ∧
      (bytes < 1024 → formatBytes bytes = toString bytes ++ " " ++ "B") ∧
      (1024 ≤ bytes → ∃ n : Nat,
        formatBytes bytes =
          toString (n / 10) ++ "." ++ toString (n % 10) ++ " " ++
            units.getD (Nat.log 1024 bytes) "undefined") ∧
      (bytes < 1024 ^ 4 → units.getD (Nat.log 1024 bytes) "undefined" ∈ units) := by
  constructor
  · refine ⟨rfl, ?_, ?_, ?_, ?_⟩
    · have hl : Nat.log 1024 1024 = 1 :=
        Nat.log_eq_of_pow_le_of_lt_pow (by norm_num) (by norm_num)
      have h1 : formatBytes 1024 = toFixed1 1024 1 ++ " " ++ units.getD 1 "undefined" := by
        simp [formatBytes, hl]
      rw [h1]
      decide
    · have hl : Nat.log 1024 500 = 0 :=
        Nat.log_eq_of_pow_le_of_lt_pow (by norm_num) (by norm_num)
      have h1 : formatBytes 500 = toString 500 ++ " " ++ units.getD 0 "undefined" := by
        simp [formatBytes, hl]
      rw [h1]
      decide
    · have hl : Nat.log 1024 1536 = 1 :=
        Nat.log_eq_of_pow_le_of_lt_pow (by norm_num) (by norm_num)
      have h1 : formatBytes 1536 = toFixed1 1536 1 ++ " " ++ units.getD 1 "undefined" := by
        simp [formatBytes, hl]
      rw [h1]
      decide
    · have hl : Nat.log 1024 1073741824 = 3 :=
        Nat.log_eq_of_pow_le_of_lt_pow (by norm_num) (by norm_num)
      have h1 : formatBytes 1073741824 =
          toFixed1 1073741824 3 ++ " " ++ units.getD 3 "undefined" := by
        simp [formatBytes, hl]
      rw [h1]
      decide
  · intro bytes hpos
    have hne : bytes ≠ 0 := Nat.pos_iff_ne_zero.mp hpos
    refine ⟨⟨Nat.pow_log_le_self 1024 hne,
      fun j hj => (Nat.pow_le_iff_le_log (by norm_num) hne).mp hj⟩, ?_, ?_, ?_⟩
    · intro hlt
      have hl : Nat.log 1024 bytes = 0 :=
        Nat.log_eq_of_pow_le_of_lt_pow (by simpa using hpos) (by simpa using hlt)
      simp [formatBytes, hne, hl, units]
    · intro hge
      have hipos : 0 < Nat.log 1024 bytes := Nat.log_pos (by norm_num) hge
      have hiz : Nat.log 1024 bytes ≠ 0 := Nat.pos_iff_ne_zero.mp hipos
      refine ⟨(20 * bytes + 1024 ^ Nat.log 1024 bytes) /
        (2 * 1024 ^ Nat.log 1024 bytes), ?_⟩
      simp [formatBytes, hne, hiz, toFixed1]
    · intro hlt
      have hi4 : Nat.log 1024 bytes < 4 := (Nat.lt_pow_iff_log_lt (by norm_num) hne).mp hlt
      exact (by decide : ∀ i, i < 4 → units.getD i "undefined" ∈ units) _ hi4

/-- C8 witness: the branch shapes at 500 (zero decimals, B unit) and 1536
(one decimal digit, unit taken from the table at the computed index). -/
theorem formatBytes_spec_witness :
    formatBytes 500 = toString 500 ++ " " ++ "B" ∧
    (∃ n : Nat, formatBytes 1536 =
      toString (n / 10) ++ "." ++ toString (n % 10) ++ " " ++
        units.getD (Nat.log 1024 1536) "undefined") ∧
    units.getD (Nat.log 1024 1536) "undefined" ∈ units :=
  ⟨(formatBytes_spec.2 500 (by norm_num)).2.1 (by norm_num),
    (formatBytes_spec.2 1536 (by norm_num)).2.2.1 (by norm_num),
    (formatBytes_spec.2 1536 (by norm_num)).2.2.2 (by norm_num)⟩

/-- C9: for every positive `bytes` below 1024^4 the computed unit index
lies within the four-entry table and the result ends in one of its units;
from 1024^4 on, the index falls outside the table (the lookup yields
nothing) and the unguarded access makes the result end in "undefined". -/
theorem unit_index_in_table (bytes : Nat) :
    (1 ≤ bytes → bytes < 1024 ^ 4 →
      Nat.log 1024 bytes < 4 ∧
      ∃ s : String, ∃ u ∈ units, formatBytes bytes = s ++ " " ++ u) ∧
    (1024 ^ 4 ≤ bytes →
      4 ≤ Nat.log 1024 bytes ∧
      units[Nat.log 1024 bytes]? = none ∧
      formatBytes bytes = toFixed1 bytes (Nat.log 1024 bytes) ++ " " ++ "undefined") := by
  constructor
  · intro h1 hlt
    have hne : bytes ≠ 0 := by omega
    have hi4 : Nat.log 1024 bytes < 4 := (Nat.lt_pow_iff_log_lt (by norm_num) hne).mp hlt
    refine ⟨hi4,
      (if Nat.log 1024 bytes = 0 then toString bytes
        else toFixed1 bytes (Nat.log 1024 bytes)),
      units.getD (Nat.log 1024 bytes) "undefined", ?_, ?_⟩
    · exact (by decide : ∀ i, i < 4 → units.getD i "undefined" ∈ units) _ hi4
    · simp [formatBytes, hne]
  · intro hge
    have hne : bytes ≠ 0 := by
      have : (0:Nat) < 1024 ^ 4 := by norm_num
      omega
    have h4 : 4 ≤ Nat.log 1024 bytes := (Nat.pow_le_iff_le_log (by norm_num) hne).mp hge
    have hiz : Nat.log 1024 bytes ≠ 0 := by omega
    have hnone : units[Nat.log 1024 bytes]? = none :=
      List.getElem?_eq_none (by simpa [units] using h4)
    refine ⟨h4, hnone, ?_⟩
    simp [formatBytes, hne, hiz, hnone]

/-- C9 witness: at 500 the index is inside the table; at 1024^4 the index
reaches 4 and the table lookup yields nothing. -/
theorem unit_index_in_table_witness :
    Nat.log 1024 500 < 4 ∧
    4 ≤ Nat.log 1024 1099511627776 ∧
    units[Nat.log 1024 1099511627776]? = none :=
  ⟨((unit_index_in_table 500).1 (by norm_num) (by norm_num)).1,
    ((unit_index_in_table 1099511627776).2 (by norm_num)).1,
    ((unit_index_in_table 1099511627776).2 (by norm_num)).2.1⟩

/-- C8 counterexample: at 1024^4 the formatter's output is
"1.0 undefined": no unit of the four-entry table occurs as its suffix, so
the formatter does not pick the largest table unit with scaled value at
least 1 (which would be GB) for every positive input. -/
theorem formatBytes_unit_counterexample :
    formatBytes 1099511627776 = "1.0 undefined" ∧
    ∀ u ∈ units, ¬ (u.data <:+ (formatBytes 1099511627776).data) := by
  have hl : Nat.log 1024 1099511627776 = 4 :=
    Nat.log_eq_of_pow_le_of_lt_pow (by norm_num) (by norm_num)
  have h1 : formatBytes 1099511627776 =
      toFixed1 1099511627776 4 ++ " " ++ units.getD 4 "undefined" := by
    simp [formatBytes, hl]
  have h2 : formatBytes 1099511627776 = "1.0 undefined" := by
    rw [h1]
    decide
  refine ⟨h2, ?_⟩
  rw [h2]
  decide
